import Mathlib

/-!
Shallow embedding of the Playwright-Scraper-Library wrappers
(`src/FileManager.js`, `src/PageHandler.js`, `src/BrowserManager.js`).

Each wrapper method is modelled as a Lean function that takes, as extra
parameters, the results the underlying engine (Node `fs.promises`,
Playwright `page`/`browser`/`context`) would return for the engine calls
the method performs, and produces a `Res α`: the observable trace of
events (engine calls, console output, waits) together with the method's
own outcome (`Except JsError α`, where `.error` models a rejected
promise, i.e. a thrown/re-thrown error).
-/

namespace PlaywrightScraper

/-- Embeds a JavaScript `Error` value: `name` (e.g. "TypeError"),
`message`, and the Node-specific `code` property (e.g. "ENOENT")
tested by `FileManager.readFile`. -/
structure JsError where
  name : String
  message : String
  code : String
  deriving DecidableEq, Repr

/-- String conversion of a JS error, as produced by template-literal
interpolation in the source's log messages. -/
def JsError.display (e : JsError) : String :=
  e.name ++ ": " ++ e.message

/-- Observable events of a wrapper method: calls into the wrapped engine,
console output, and waits (`page.waitForTimeout`, recorded with the
requested duration in milliseconds). -/
inductive Event where
  | engineCall : String → List String → Event
  | sleep : Int → Event
  | consoleLog : String → Event
  | consoleError : String → Event
  | consoleWarn : String → Event
  deriving DecidableEq, Repr

/-- String form of a JS boolean, for recording option arguments of engine
calls. -/
def jsBool (b : Bool) : String :=
  if b then "true" else "false"

/-- Result of running a wrapper method: the trace of observable events in
order, and the settled outcome of the returned promise. -/
structure Res (α : Type) where
  trace : List Event
  result : Except JsError α
  deriving Repr

/-- Names of the engine calls appearing in a trace, in order
(`page.waitForTimeout` is the engine call behind a `sleep` event). -/
def engineCalls : List Event → List String
  | [] => []
  | .engineCall n _ :: tr => n :: engineCalls tr
  | .sleep _ :: tr => "page.waitForTimeout" :: engineCalls tr
  | _ :: tr => engineCalls tr

/-- Messages of the `console.log` events of a trace, in order. -/
def logs : List Event → List String
  | [] => []
  | .consoleLog m :: tr => m :: logs tr
  | _ :: tr => logs tr

/-- Messages of the `console.error` events of a trace, in order. -/
def errorLogs : List Event → List String
  | [] => []
  | .consoleError m :: tr => m :: errorLogs tr
  | _ :: tr => errorLogs tr

/-- Messages of the `console.warn` events of a trace, in order. -/
def warnLogs : List Event → List String
  | [] => []
  | .consoleWarn m :: tr => m :: warnLogs tr
  | _ :: tr => warnLogs tr

/-- Durations of the waits (`page.waitForTimeout` calls) of a trace. -/
def sleeps : List Event → List Int
  | [] => []
  | .sleep ms :: tr => ms :: sleeps tr
  | _ :: tr => sleeps tr

/-- Embeds the JavaScript values relevant to the wrappers' condition
tests, to model JS truthiness faithfully. `promiseObj` is a (pending)
Promise object such as the un-awaited `this.pathExist(path)` in
`FileManager.deletePath`. -/
inductive JsValue where
  | null
  | undefined
  | bool : Bool → JsValue
  | num : Int → JsValue
  | str : String → JsValue
  | object
  | promiseObj
  deriving DecidableEq, Repr

/-- JavaScript truthiness: `null`, `undefined`, `false`, `0` and `""` are
falsy; every object — in particular every Promise — is truthy. -/
def truthy : JsValue → Bool
  | .null => false
  | .undefined => false
  | .bool b => b
  | .num n => n ≠ 0
  | .str s => s ≠ ""
  | .object => true
  | .promiseObj => true

namespace FileManager

/-- Embeds `FileManager.createDirectory` (FileManager.js:13-21): awaits
`fs.mkdir(dirPath, { recursive })`, logs on success; on failure logs the
error and re-throws. `mkdirRes` is the engine's result for `fs.mkdir`. -/
def createDirectory (mkdirRes : Except JsError Unit) (dirPath : String)
    (recursive : Bool) : Res Unit :=
  match mkdirRes with
  | .ok () =>
    ⟨[.engineCall "fs.mkdir" [dirPath, jsBool recursive],
      .consoleLog ("directory already exist or it was created: " ++ dirPath)], .ok ()⟩
  | .error e =>
    ⟨[.engineCall "fs.mkdir" [dirPath, jsBool recursive],
      .consoleError ("Error creating directory " ++ dirPath ++ ": " ++ e.display)], .error e⟩

/-- Embeds `FileManager.readFile` (FileManager.js:45-58): awaits
`fs.readFile(filePath, options)`, logs and returns the data on success;
on failure logs ("File not found" when `error.code === 'ENOENT'`,
a generic message otherwise) and re-throws. -/
def readFile (readRes : Except JsError String) (filePath : String)
    (options : String) : Res String :=
  match readRes with
  | .ok data =>
    ⟨[.engineCall "fs.readFile" [filePath, options],
      .consoleLog ("Read file at path: " ++ filePath)], .ok data⟩
  | .error e =>
    if e.code = "ENOENT" then
      ⟨[.engineCall "fs.readFile" [filePath, options],
        .consoleError ("File not found: " ++ e.message)], .error e⟩
    else
      ⟨[.engineCall "fs.readFile" [filePath, options],
        .consoleError ("Error reading file: " ++ e.display)], .error e⟩

/-- Embeds `FileManager.writeFile` (FileManager.js:65-73): awaits
`fs.writeFile(filePath, data)`, logs on success; on failure logs the
error and re-throws. -/
def writeFile (writeRes : Except JsError Unit) (filePath : String)
    (data : String) : Res Unit :=
  match writeRes with
  | .ok () =>
    ⟨[.engineCall "fs.writeFile" [filePath, data],
      .consoleLog ("Wrote data to file at: " ++ filePath)], .ok ()⟩
  | .error e =>
    ⟨[.engineCall "fs.writeFile" [filePath, data],
      .consoleError ("Error writing file at " ++ filePath ++ ": " ++ e.display)], .error e⟩

/-- Embeds `FileManager.appendToFile` (FileManager.js:80-88): awaits
`fs.appendFile(filePath, data)`, logs on success; on failure logs the
error and re-throws. -/
def appendToFile (appendRes : Except JsError Unit) (filePath : String)
    (data : String) : Res Unit :=
  match appendRes with
  | .ok () =>
    ⟨[.engineCall "fs.appendFile" [filePath, data],
      .consoleLog ("Appended data to file at path: " ++ filePath)], .ok ()⟩
  | .error e =>
    ⟨[.engineCall "fs.appendFile" [filePath, data],
      .consoleError ("Error appending to file " ++ filePath ++ ": " ++ e.display)], .error e⟩

/-- Embeds `FileManager.saveJson` (FileManager.js:112-124): when
`prettyPrint` is set, replaces `data` with `JSON.stringify(data, null, 2)`
(whose output the model takes as the extra parameter `prettified`), then
awaits `fs.writeFile(filePath, data)`; logs on success, logs and
re-throws on failure. -/
def saveJson (writeRes : Except JsError Unit) (filePath : String)
    (data prettified : String) (prettyPrint : Bool) : Res Unit :=
  let written := if prettyPrint then prettified else data
  match writeRes with
  | .ok () =>
    ⟨[.engineCall "fs.writeFile" [filePath, written],
      .consoleLog ("JSON file saved at path " ++ filePath)], .ok ()⟩
  | .error e =>
    ⟨[.engineCall "fs.writeFile" [filePath, written],
      .consoleError ("Error saving JSON file " ++ filePath ++ ": " ++ e.display)], .error e⟩

/-- The error raised by `FileManager.pathExist` (FileManager.js:151-158):
the module binds `fs = require('fs').promises`, and `fs.promises` has no
`existsSync` member, so `fs.existsSync(path)` calls `undefined` and
raises a `TypeError` on every input. -/
def existsSyncUndefinedError : JsError :=
  ⟨"TypeError", "fs.existsSync is not a function", ""⟩

/-- Embeds `FileManager.pathExist` (FileManager.js:151-158): evaluates
`fs.existsSync(path)` where `fs = require('fs').promises`; since that
member is `undefined`, the call raises a `TypeError` before any engine
call happens; the catch block logs it and re-throws, so the returned
promise rejects for every input. -/
def pathExist (path : String) : Res Bool :=
  ⟨[.consoleError ("Error verifying existance of path " ++ path ++ ": "
      ++ existsSyncUndefinedError.display)],
   .error existsSyncUndefinedError⟩

/-- Embeds `FileManager.fileExists` (FileManager.js:102-104): returns
`await this.pathExist(filePath)`. -/
def fileExists (filePath : String) : Res Bool :=
  pathExist filePath

/-- Embeds `FileManager.directoryExists` (FileManager.js:35-37): returns
`this.pathExist(dirPath)`. -/
def directoryExists (dirPath : String) : Res Bool :=
  pathExist dirPath

/-- Embeds `FileManager.deletePath` (FileManager.js:132-144): evaluates
`if (this.pathExist(path))` WITHOUT `await` — `pathExist` runs (its
console output happens and its rejection goes unhandled) but the tested
value is the Promise object itself, which is truthy; so the then-branch
always runs: `fs.rm(path, { recursive })` is awaited, logging on success;
on `fs.rm` failure the error is logged and re-thrown. `rmRes` is the
engine's result for `fs.rm`. -/
def deletePath (rmRes : Except JsError Unit) (path : String) (recursive : Bool) : Res Unit :=
  let checkTrace := (pathExist path).trace
  if truthy .promiseObj then
    match rmRes with
    | .ok () =>
      ⟨checkTrace ++ [.engineCall "fs.rm" [path, jsBool recursive],
        .consoleLog ("Deleted path: " ++ path)], .ok ()⟩
    | .error e =>
      ⟨checkTrace ++ [.engineCall "fs.rm" [path, jsBool recursive],
        .consoleError ("Error deleting " ++ path ++ ": " ++ e.display)], .error e⟩
  else
    ⟨checkTrace ++ [.consoleWarn ("Non-existing path can\x27t be removed: " ++ path)], .ok ()⟩

/-- Embeds `FileManager.deleteFile` (FileManager.js:94-96): returns
`await this.deletePath(filePath)` (with `recursive` defaulted to false). -/
def deleteFile (rmRes : Except JsError Unit) (filePath : String) : Res Unit :=
  deletePath rmRes filePath false

/-- Embeds `FileManager.deleteDirectory` (FileManager.js:27-29): returns
`this.deletePath(dirPath, true)`. -/
def deleteDirectory (rmRes : Except JsError Unit) (dirPath : String) : Res Unit :=
  deletePath rmRes dirPath true

end FileManager

namespace PageHandler

/-- Embeds the wait-time computation of `PageHandler.waitForRandomTimeout`
(PageHandler source, line `const waitTime = Math.floor(Math.random() *
(waitMax - waitMin + 1)) + waitMin`): `r` stands for the draw of
`Math.random()`, a number in `[0, 1)`. -/
def waitTime (waitMin waitMax : Int) (r : ℚ) : Int :=
  ⌊r * ((waitMax : ℚ) - (waitMin : ℚ) + 1)⌋ + waitMin

/-- Embeds `PageHandler.waitForRandomTimeout`: computes `waitTime` from
the random draw `r` and awaits `this.page.waitForTimeout(waitTime)`
(recorded as a `sleep` event); it has no try/catch, so a failure of the
engine call propagates to the caller without any logging. Source
defaults: `waitMin = 5000`, `waitMax = 12000`. -/
def waitForRandomTimeout (waitRes : Except JsError Unit) (r : ℚ)
    (waitMin waitMax : Int) : Res Unit :=
  match waitRes with
  | .ok () => ⟨[.sleep (waitTime waitMin waitMax r)], .ok ()⟩
  | .error e => ⟨[.sleep (waitTime waitMin waitMax r)], .error e⟩

/-- Embeds `PageHandler.goToUrl`: logs "Goto: url" first, awaits
`this.page.goto(url, options)`, then awaits
`this.waitForRandomTimeout(waitMin, waitMax)`; any failure is logged and
re-thrown. Source defaults: `options = {waitUntil: 'load'}`,
`waitMin = 4000`, `waitMax = 7000`. -/
def goToUrl (gotoRes waitRes : Except JsError Unit) (url options : String)
    (waitMin waitMax : Int) (r : ℚ) : Res Unit :=
  match gotoRes with
  | .error e =>
    ⟨[.consoleLog ("Goto: " ++ url ++ "\n"),
      .engineCall "page.goto" [url, options],
      .consoleError ("Error going to url: " ++ url ++ ", error: " ++ e.display)], .error e⟩
  | .ok () =>
    let w := waitForRandomTimeout waitRes r waitMin waitMax
    match w.result with
    | .ok () =>
      ⟨.consoleLog ("Goto: " ++ url ++ "\n")
        :: .engineCall "page.goto" [url, options] :: w.trace, .ok ()⟩
    | .error e =>
      ⟨.consoleLog ("Goto: " ++ url ++ "\n")
        :: .engineCall "page.goto" [url, options] :: w.trace
        ++ [.consoleError ("Error going to url: " ++ url ++ ", error: " ++ e.display)],
       .error e⟩

/-- Embeds `PageHandler.goBack`: logs "Go Back" first, awaits
`this.page.goBack(options)`, then the random wait; any failure is logged
and re-thrown. -/
def goBack (backRes waitRes : Except JsError Unit) (options : String)
    (waitMin waitMax : Int) (r : ℚ) : Res Unit :=
  match backRes with
  | .error e =>
    ⟨[.consoleLog "Go Back\n",
      .engineCall "page.goBack" [options],
      .consoleError ("Error going back: " ++ e.display)], .error e⟩
  | .ok () =>
    let w := waitForRandomTimeout waitRes r waitMin waitMax
    match w.result with
    | .ok () =>
      ⟨.consoleLog "Go Back\n" :: .engineCall "page.goBack" [options] :: w.trace, .ok ()⟩
    | .error e =>
      ⟨.consoleLog "Go Back\n" :: .engineCall "page.goBack" [options] :: w.trace
        ++ [.consoleError ("Error going back: " ++ e.display)], .error e⟩

/-- Embeds `PageHandler.goForward`: awaits `this.page.goForward(options)`,
then the random wait, then logs "Go Forward"; any failure is logged and
re-thrown. -/
def goForward (forwardRes waitRes : Except JsError Unit) (options : String)
    (waitMin waitMax : Int) (r : ℚ) : Res Unit :=
  match forwardRes with
  | .error e =>
    ⟨[.engineCall "page.goForward" [options],
      .consoleError ("Error going forward: " ++ e.display)], .error e⟩
  | .ok () =>
    let w := waitForRandomTimeout waitRes r waitMin waitMax
    match w.result with
    | .ok () =>
      ⟨.engineCall "page.goForward" [options] :: w.trace ++ [.consoleLog "Go Forward"], .ok ()⟩
    | .error e =>
      ⟨.engineCall "page.goForward" [options] :: w.trace
        ++ [.consoleError ("Error going forward: " ++ e.display)], .error e⟩

/-- Embeds `PageHandler.reloadPage`: awaits `this.page.reload(options)`,
then the random wait, then logs "Reloaded Page"; any failure is logged
and re-thrown. -/
def reloadPage (reloadRes waitRes : Except JsError Unit) (options : String)
    (waitMin waitMax : Int) (r : ℚ) : Res Unit :=
  match reloadRes with
  | .error e =>
    ⟨[.engineCall "page.reload" [options],
      .consoleError ("Error reloading page: " ++ e.display)], .error e⟩
  | .ok () =>
    let w := waitForRandomTimeout waitRes r waitMin waitMax
    match w.result with
    | .ok () =>
      ⟨.engineCall "page.reload" [options] :: w.trace
        ++ [.consoleLog "Reloaded Page\n"], .ok ()⟩
    | .error e =>
      ⟨.engineCall "page.reload" [options] :: w.trace
        ++ [.consoleError ("Error reloading page: " ++ e.display)], .error e⟩

/-- Embeds `PageHandler.getElements`: returns
`await this.page.locator(selector).all()` (element handles modelled as
numbers); on failure logs the error and re-throws. There is no success
log. -/
def getElements (selector : String) (allRes : Except JsError (List Nat)) :
    Res (List Nat) :=
  match allRes with
  | .ok xs => ⟨[.engineCall "page.locator.all" [selector]], .ok xs⟩
  | .error e =>
    ⟨[.engineCall "page.locator.all" [selector],
      .consoleError ("Error getting elements with selector " ++ selector
        ++ ", error: " ++ e.display)], .error e⟩

/-- Embeds `PageHandler.getElementText`: calls `textContent()` on
`this.page.locator(selectorOrLocator)` when given a string, or on the
locator directly; on success returns the text (possibly null); on
failure logs the error and RETURNS NULL — the error is not re-thrown. -/
def getElementText (isSelector : Bool) (sel : String)
    (textRes : Except JsError (Option String)) : Res (Option String) :=
  let call := Event.engineCall
    (if isSelector then "page.locator.textContent" else "locator.textContent") [sel]
  match textRes with
  | .ok t => ⟨[call], .ok t⟩
  | .error e =>
    ⟨[call, .consoleError ("Error getting element text with selector " ++ sel
        ++ ": " ++ e.display)], .ok none⟩

/-- Embeds `PageHandler.getElementAttribute`: returns
`await selectorOrLocator.getAttribute(attributeName)`; on failure logs
(the attribute name only) and re-throws. There is no success log. -/
def getElementAttribute (sel attributeName : String)
    (attrRes : Except JsError (Option String)) : Res (Option String) :=
  match attrRes with
  | .ok v => ⟨[.engineCall "locator.getAttribute" [sel, attributeName]], .ok v⟩
  | .error e =>
    ⟨[.engineCall "locator.getAttribute" [sel, attributeName],
      .consoleError ("Error getting element attribute: " ++ attributeName)], .error e⟩

/-- Embeds `PageHandler.clickAndWait`: clicks via
`this.page.locator(selectorOrLocator).click()` (string input) or
`selectorOrLocator.click()` (locator input), then awaits the random
wait, then logs "Clicked element"; any failure is logged and re-thrown.
Source defaults: `waitMin = 3000`, `waitMax = 7000`. -/
def clickAndWait (isSelector : Bool) (sel : String)
    (clickRes waitRes : Except JsError Unit) (waitMin waitMax : Int) (r : ℚ) :
    Res Unit :=
  let call := Event.engineCall
    (if isSelector then "page.locator.click" else "locator.click") [sel]
  match clickRes with
  | .error e =>
    ⟨[call, .consoleError ("Error clicking element: " ++ e.display)], .error e⟩
  | .ok () =>
    let w := waitForRandomTimeout waitRes r waitMin waitMax
    match w.result with
    | .ok () => ⟨call :: w.trace ++ [.consoleLog "Clicked element"], .ok ()⟩
    | .error e =>
      ⟨call :: w.trace
        ++ [.consoleError ("Error clicking element: " ++ e.display)], .error e⟩

/-- Embeds `PageHandler.typeText`: converts a string input to
`this.page.locator(...)`, then awaits `fill(text)`, the random wait, and
logs; returns `true` on success. On failure: when `throwOnError` is true
(the default) logs the error and re-throws; otherwise logs a warning and
RETURNS FALSE. Source defaults: `waitMin = 3000`, `waitMax = 8000`. -/
def typeText (isSelector : Bool) (sel text : String)
    (fillRes waitRes : Except JsError Unit) (waitMin waitMax : Int) (r : ℚ)
    (throwOnError : Bool) : Res Bool :=
  let call := Event.engineCall
    (if isSelector then "page.locator.fill" else "locator.fill") [sel, text]
  match fillRes with
  | .error e =>
    if throwOnError then
      ⟨[call, .consoleError ("Error filling element: " ++ e.display)], .error e⟩
    else
      ⟨[call, .consoleWarn ("Warning: Could not fill element (likely not an input element): "
          ++ e.message)], .ok false⟩
  | .ok () =>
    let w := waitForRandomTimeout waitRes r waitMin waitMax
    match w.result with
    | .ok () =>
      ⟨call :: w.trace ++ [.consoleLog ("Filled input element with: " ++ text)], .ok true⟩
    | .error e =>
      if throwOnError then
        ⟨call :: w.trace
          ++ [.consoleError ("Error filling element: " ++ e.display)], .error e⟩
      else
        ⟨call :: w.trace
          ++ [.consoleWarn ("Warning: Could not fill element (likely not an input element): "
              ++ e.message)], .ok false⟩

/-- Embeds `PageHandler.clickElemenWithText`: clicks
`this.page.locator(selector, { hasText: elementText })`, then the random
wait, then logs; on failure logs and re-throws (the source's error
message interpolates `elementText` where the error was meant:
`error: ${elementText}`). -/
def clickElemenWithText (selector elementText : String)
    (clickRes waitRes : Except JsError Unit) (waitMin waitMax : Int) (r : ℚ) :
    Res Unit :=
  let call := Event.engineCall "page.locator.click" [selector, elementText]
  match clickRes with
  | .error e =>
    ⟨[call, .consoleError ("Error clicking element with text: " ++ elementText
        ++ ", error: " ++ elementText)], .error e⟩
  | .ok () =>
    let w := waitForRandomTimeout waitRes r waitMin waitMax
    match w.result with
    | .ok () =>
      ⟨call :: w.trace
        ++ [.consoleLog ("Clicked element with text: " ++ elementText)], .ok ()⟩
    | .error e =>
      ⟨call :: w.trace
        ++ [.consoleError ("Error clicking element with text: " ++ elementText
            ++ ", error: " ++ elementText)], .error e⟩

end PageHandler

/-- Embeds the mutable fields of a `BrowserManager` instance
(BrowserManager.js:11-15): `browser`, `context`, `page`, each initially
`null` (`none`); engine handles are modelled as numbers. -/
structure BMState where
  browser : Option Nat
  context : Option Nat
  page : Option Nat
  deriving DecidableEq, Repr

namespace BrowserManager

/-- Embeds the `BrowserManager` constructor: all three fields null. -/
def initialState : BMState := ⟨none, none, none⟩

/-- Embeds `BrowserManager.launchBrowser` (BrowserManager.js:23-35):
awaits `chromium.launch`, `this.browser.newContext`,
`this.context.newPage` in sequence, assigning each field as its call
succeeds; logs "Browser Launched" and returns the page on success; on
any failure logs the error and re-throws (fields assigned so far keep
their new values). -/
def launchBrowser (st : BMState) (launchRes newCtxRes newPageRes : Except JsError Nat) :
    BMState × Res Nat :=
  match launchRes with
  | .error e =>
    (st, ⟨[.engineCall "chromium.launch" [],
           .consoleError ("Error launching browser: " ++ e.display)], .error e⟩)
  | .ok b =>
    match newCtxRes with
    | .error e =>
      (⟨some b, st.context, st.page⟩,
       ⟨[.engineCall "chromium.launch" [], .engineCall "browser.newContext" [],
         .consoleError ("Error launching browser: " ++ e.display)], .error e⟩)
    | .ok c =>
      match newPageRes with
      | .error e =>
        (⟨some b, some c, st.page⟩,
         ⟨[.engineCall "chromium.launch" [], .engineCall "browser.newContext" [],
           .engineCall "context.newPage" [],
           .consoleError ("Error launching browser: " ++ e.display)], .error e⟩)
      | .ok p =>
        (⟨some b, some c, some p⟩,
         ⟨[.engineCall "chromium.launch" [], .engineCall "browser.newContext" [],
           .engineCall "context.newPage" [], .consoleLog "Browser Launched"], .ok p⟩)

/-- The error raised in `BrowserManager.connectOverCDP` when
`this.browser.contexts()[contextIndex]` is `undefined` and
`this.context.newPage()` is then called on it. -/
def undefinedContextError : JsError :=
  ⟨"TypeError", "Cannot read properties of undefined (reading \x27newPage\x27)", ""⟩

/-- Embeds `BrowserManager.connectOverCDP` (BrowserManager.js:43-55):
awaits `chromium.connectOverCDP(endpoint)`, picks
`this.browser.contexts()[contextIndex]` (undefined when the index is out
of range, in which case `newPage` raises a TypeError), awaits
`this.context.newPage()`, logs and returns the page; on any failure logs
the error and re-throws. -/
def connectOverCDP (st : BMState) (endpoint : String) (contextIndex : Nat)
    (connectRes : Except JsError Nat) (contexts : List Nat)
    (newPageRes : Except JsError Nat) : BMState × Res Nat :=
  match connectRes with
  | .error e =>
    (st, ⟨[.engineCall "chromium.connectOverCDP" [endpoint],
           .consoleError ("Error connecting to endpoint " ++ endpoint ++ ": "
             ++ e.display)], .error e⟩)
  | .ok b =>
    match contexts.get? contextIndex with
    | none =>
      (⟨some b, none, st.page⟩,
       ⟨[.engineCall "chromium.connectOverCDP" [endpoint],
         .engineCall "browser.contexts" [],
         .consoleError ("Error connecting to endpoint " ++ endpoint ++ ": "
           ++ undefinedContextError.display)], .error undefinedContextError⟩)
    | some c =>
      match newPageRes with
      | .error e =>
        (⟨some b, some c, st.page⟩,
         ⟨[.engineCall "chromium.connectOverCDP" [endpoint],
           .engineCall "browser.contexts" [], .engineCall "context.newPage" [],
           .consoleError ("Error connecting to endpoint " ++ endpoint ++ ": "
             ++ e.display)], .error e⟩)
      | .ok p =>
        (⟨some b, some c, some p⟩,
         ⟨[.engineCall "chromium.connectOverCDP" [endpoint],
           .engineCall "browser.contexts" [], .engineCall "context.newPage" [],
           .consoleLog ("Connected to endpoint: " ++ endpoint ++ ", context index: "
             ++ toString contextIndex)], .ok p⟩)

/-- Embeds `BrowserManager.newContext` (BrowserManager.js:64-77): when
`this.context` is null, awaits `this.browser.newContext(contextOptions)`,
stores and logs it; when a context already exists, only warns; either
way returns `this.context`; an engine failure is logged and re-thrown. -/
def newContext (st : BMState) (newCtxRes : Except JsError Nat) : BMState × Res Nat :=
  match st.context with
  | some c =>
    (st, ⟨[.consoleWarn "Current Context needs to close before creating a new one"], .ok c⟩)
  | none =>
    match newCtxRes with
    | .ok c =>
      (⟨st.browser, some c, st.page⟩,
       ⟨[.engineCall "browser.newContext" [], .consoleLog "New Context Created"], .ok c⟩)
    | .error e =>
      (st, ⟨[.engineCall "browser.newContext" [],
             .consoleError ("Error creating context: " ++ e.display)], .error e⟩)

/-- Embeds `BrowserManager.newPage` (BrowserManager.js:84-97): with
`isolatePage` it logs first and returns `this.context.newPage()` without
touching `this.page`; otherwise it assigns `this.page` and logs; an
engine failure is logged and re-thrown. -/
def newPage (st : BMState) (isolatePage : Bool) (newPageRes : Except JsError Nat) :
    BMState × Res Nat :=
  if isolatePage then
    match newPageRes with
    | .ok p =>
      (st, ⟨[.consoleLog "Creating new isolated page",
             .engineCall "context.newPage" []], .ok p⟩)
    | .error e =>
      (st, ⟨[.consoleLog "Creating new isolated page", .engineCall "context.newPage" [],
             .consoleError ("Error creating new page: " ++ e.display)], .error e⟩)
  else
    match newPageRes with
    | .ok p =>
      (⟨st.browser, st.context, some p⟩,
       ⟨[.engineCall "context.newPage" [], .consoleLog "New Page Created"], .ok p⟩)
    | .error e =>
      (st, ⟨[.engineCall "context.newPage" [],
             .consoleError ("Error creating new page: " ++ e.display)], .error e⟩)

/-- Embeds `BrowserManager.closeContext` (BrowserManager.js:102-111):
when `this.context` is non-null, awaits `this.context.close()` and logs;
an engine failure is logged but NOT re-thrown (the catch has no throw);
`this.context` is never reset to null. -/
def closeContext (st : BMState) (closeRes : Except JsError Unit) : BMState × Res Unit :=
  match st.context with
  | none => (st, ⟨[], .ok ()⟩)
  | some _ =>
    match closeRes with
    | .ok () =>
      (st, ⟨[.engineCall "context.close" [], .consoleLog "Closed Context"], .ok ()⟩)
    | .error e =>
      (st, ⟨[.engineCall "context.close" [],
             .consoleError ("Error closing context: " ++ e.display)], .ok ()⟩)

/-- Embeds `BrowserManager.closeBrowser` (BrowserManager.js:116-126):
when `this.browser` is non-null, awaits `this.closeContext()` then
`this.browser.close()` and logs; an engine failure is logged but NOT
re-thrown; `this.browser` is never reset to null. -/
def closeBrowser (st : BMState) (ctxCloseRes browserCloseRes : Except JsError Unit) :
    BMState × Res Unit :=
  match st.browser with
  | none => (st, ⟨[], .ok ()⟩)
  | some _ =>
    let s := closeContext st ctxCloseRes
    match s.2.result with
    | .error e =>
      (s.1, ⟨s.2.trace
        ++ [.consoleError ("Error closing browser: " ++ e.display)], .ok ()⟩)
    | .ok () =>
      match browserCloseRes with
      | .ok () =>
        (s.1, ⟨s.2.trace ++ [.engineCall "browser.close" [],
          .consoleLog "Closed Browser"], .ok ()⟩)
      | .error e =>
        (s.1, ⟨s.2.trace ++ [.engineCall "browser.close" [],
          .consoleError ("Error closing browser: " ++ e.display)], .ok ()⟩)

end BrowserManager

namespace EngineModel

/-- Modelled from the spec: a DOM element of the page driven by the
wrapped browser-automation engine (its text contents and attributes);
the engine itself is not part of this repository's sources. -/
structure Elem where
  text : String
  attrs : List (String × String)
  deriving DecidableEq, Repr

/-- Modelled from the spec: the page's DOM at one instant, associating
each selector with the elements currently matching it. -/
abbrev DOM := List (String × List Elem)

/-- Elements matching a selector in a DOM snapshot. -/
def query (d : DOM) (sel : String) : List Elem :=
  match d.lookup sel with
  | some es => es
  | none => []

/-- Modelled from the spec: "Locator: a lazily-resolved reference to
zero-or-more DOM elements, re-queried at the time of each action." A
Locator records only the selector; it captures no elements at creation
time. -/
structure Locator where
  selector : String
  deriving DecidableEq, Repr

/-- Modelled from the spec: `page.locator(selector)` evaluated while the
page shows DOM `_creationDom`; the creation-time DOM is not consulted. -/
def pageLocator (_creationDom : DOM) (sel : String) : Locator :=
  ⟨sel⟩

/-- Modelled from the spec: `locator.textContent()` executed while the
page shows DOM `actionDom`: the locator's selector is re-queried against
the current DOM and the first match's text is returned (null when there
is no match). -/
def textContentAt (actionDom : DOM) (loc : Locator) : Option String :=
  ((query actionDom loc.selector).head?).map Elem.text

/-- Modelled from the spec: `locator.getAttribute(name)` executed while
the page shows DOM `actionDom`: re-queries the selector and reads the
attribute off the first current match. -/
def getAttributeAt (actionDom : DOM) (loc : Locator) (attributeName : String) :
    Option String :=
  ((query actionDom loc.selector).head?).bind fun el => el.attrs.lookup attributeName

/-- Modelled from the spec: the element `locator.click()` acts on when
executed while the page shows DOM `actionDom` (none when nothing
matches and the click fails). -/
def clickTargetAt (actionDom : DOM) (loc : Locator) : Option Elem :=
  (query actionDom loc.selector).head?

/-- Modelled from the spec: the element `locator.fill(text)` acts on
when executed while the page shows DOM `actionDom`. -/
def fillTargetAt (actionDom : DOM) (loc : Locator) : Option Elem :=
  (query actionDom loc.selector).head?

end EngineModel

/-! Theorems settling the claims. -/

/-- C1, counterexample: `BrowserManager.launchBrowser` is not a
one-to-one pass-through to a single engine call — on a fully successful
run it performs three engine calls (`chromium.launch`,
`browser.newContext`, `context.newPage`), not one. -/
theorem C1_counterexample :
    engineCalls (BrowserManager.launchBrowser BrowserManager.initialState
        (.ok 1) (.ok 2) (.ok 3)).2.trace
      = ["chromium.launch", "browser.newContext", "context.newPage"] ∧
    (engineCalls (BrowserManager.launchBrowser BrowserManager.initialState
        (.ok 1) (.ok 2) (.ok 3)).2.trace).length ≠ 1 := by
  refine ⟨rfl, by decide⟩

/-- C1 (amended): the basic FileManager I/O operations `createDirectory`,
`readFile`, `writeFile` and `appendToFile` are one-to-one pass-throughs:
each performs exactly the single corresponding `fs` engine call (plus
logging) and its outcome equals the engine call's result; the remaining
operations of the library are not single-call pass-throughs (they make
several engine calls, branch on stored state, or add random-delay
waits). -/
theorem C1_amended (mkdirRes writeRes appendRes : Except JsError Unit)
    (readRes : Except JsError String) (p o d : String) (recursive : Bool) :
    (FileManager.createDirectory mkdirRes p recursive).result = mkdirRes ∧
    engineCalls (FileManager.createDirectory mkdirRes p recursive).trace = ["fs.mkdir"] ∧
    (FileManager.readFile readRes p o).result = readRes ∧
    engineCalls (FileManager.readFile readRes p o).trace = ["fs.readFile"] ∧
    (FileManager.writeFile writeRes p d).result = writeRes ∧
    engineCalls (FileManager.writeFile writeRes p d).trace = ["fs.writeFile"] ∧
    (FileManager.appendToFile appendRes p d).result = appendRes ∧
    engineCalls (FileManager.appendToFile appendRes p d).trace = ["fs.appendFile"] := by
  refine ⟨?_, ?_, ?_, ?_, ?_, ?_, ?_, ?_⟩ <;>
    first
      | (cases mkdirRes <;> rfl)
      | (cases readRes <;> simp [FileManager.readFile, engineCalls] <;>
          split <;> simp [engineCalls])
      | (cases writeRes <;> rfl)
      | (cases appendRes <;> rfl)

/-- C2, counterexample: `PageHandler.getElementText` does not re-throw a
failed engine call — it logs the error and resolves normally with null,
converting the failure into a return value. -/
theorem C2_counterexample :
    (PageHandler.getElementText true ".testing"
        (.error ⟨"Error", "boom", ""⟩)).result = .ok none ∧
    (PageHandler.getElementText true ".testing"
        (.error ⟨"Error", "boom", ""⟩)).result ≠ .error ⟨"Error", "boom", ""⟩ := by
  refine ⟨rfl, by simp [PageHandler.getElementText]⟩

/-- C2 (amended): whenever the underlying engine call fails, the
operation logs the error and re-throws it to the caller, EXCEPT:
`getElementText` logs and resolves normally with null; `typeText` with
`throwOnError = false` logs a warning and resolves with false;
`closeContext` and `closeBrowser` log the error but always resolve
normally (they swallow it); `waitForRandomTimeout` re-throws without
logging. -/
theorem C2_amended (e : JsError)
    (p o d sel text url options endpoint prettified : String)
    (recursive iso pretty : Bool) (b c : Nat) (bOpt pgOpt : Option Nat)
    (wmin wmax : Int) (r : ℚ) (st : BMState) (r3 : Except JsError Nat)
    (wres cres : Except JsError Unit) :
    (FileManager.createDirectory (.error e) p recursive).result = .error e ∧
    (errorLogs (FileManager.createDirectory (.error e) p recursive).trace).length = 1 ∧
    (FileManager.readFile (.error e) p o).result = .error e ∧
    (errorLogs (FileManager.readFile (.error e) p o).trace).length = 1 ∧
    (FileManager.writeFile (.error e) p d).result = .error e ∧
    (FileManager.appendToFile (.error e) p d).result = .error e ∧
    (FileManager.saveJson (.error e) p d prettified pretty).result = .error e ∧
    (FileManager.deletePath (.error e) p recursive).result = .error e ∧
    (BrowserManager.launchBrowser st (.error e) r3 r3).2.result = .error e ∧
    (BrowserManager.launchBrowser st (.ok b) (.error e) r3).2.result = .error e ∧
    (BrowserManager.launchBrowser st (.ok b) (.ok c) (.error e)).2.result = .error e ∧
    (BrowserManager.connectOverCDP st endpoint 0 (.error e) [c] r3).2.result = .error e ∧
    (BrowserManager.connectOverCDP st endpoint 0 (.ok b) [c] (.error e)).2.result = .error e ∧
    (BrowserManager.newContext ⟨bOpt, none, pgOpt⟩ (.error e)).2.result = .error e ∧
    (BrowserManager.newPage st iso (.error e)).2.result = .error e ∧
    (PageHandler.goToUrl (.error e) wres url options wmin wmax r).result = .error e ∧
    (PageHandler.goToUrl (.ok ()) (.error e) url options wmin wmax r).result = .error e ∧
    (PageHandler.goBack (.error e) wres options wmin wmax r).result = .error e ∧
    (PageHandler.goForward (.error e) wres options wmin wmax r).result = .error e ∧
    (PageHandler.reloadPage (.error e) wres options wmin wmax r).result = .error e ∧
    (PageHandler.getElements sel (.error e)).result = .error e ∧
    (errorLogs (PageHandler.getElements sel (.error e)).trace).length = 1 ∧
    (PageHandler.getElementAttribute sel o (.error e)).result = .error e ∧
    (PageHandler.clickAndWait true sel (.error e) wres wmin wmax r).result = .error e ∧
    (PageHandler.clickAndWait true sel (.ok ()) (.error e) wmin wmax r).result = .error e ∧
    (PageHandler.typeText true sel text (.error e) wres wmin wmax r true).result = .error e ∧
    (PageHandler.clickElemenWithText sel text (.error e) wres wmin wmax r).result = .error e ∧
    (PageHandler.getElementText true sel (.error e)).result = .ok none ∧
    (PageHandler.typeText true sel text (.error e) wres wmin wmax r false).result = .ok false ∧
    (warnLogs (PageHandler.typeText true sel text (.error e) wres wmin wmax r false).trace).length = 1 ∧
    (BrowserManager.closeContext ⟨bOpt, some c, pgOpt⟩ (.error e)).2.result = .ok () ∧
    (errorLogs (BrowserManager.closeContext ⟨bOpt, some c, pgOpt⟩ (.error e)).2.trace).length = 1 ∧
    (BrowserManager.closeBrowser st cres (.error e)).2.result = .ok () ∧
    (PageHandler.waitForRandomTimeout (.error e) r wmin wmax).result = .error e ∧
    errorLogs (PageHandler.waitForRandomTimeout (.error e) r wmin wmax).trace = [] := by
  refine ⟨rfl, rfl,
    (by simp only [FileManager.readFile]; split <;> rfl),
    (by simp only [FileManager.readFile]; split <;> rfl),
    rfl, rfl, rfl, rfl, rfl, rfl, rfl, rfl, rfl, rfl,
    (by cases iso <;> rfl),
    rfl, rfl, rfl, rfl, rfl, rfl, rfl, rfl, rfl, rfl, rfl, rfl, rfl, rfl, rfl,
    rfl, rfl,
    (by rcases st with ⟨bb, cc, pp⟩
        cases bb <;> cases cc <;> cases cres <;> rfl),
    rfl, rfl⟩

/-- C3: `FileManager.pathExist` rejects for every input path — the
module's `fs` is `require('fs').promises`, which has no `existsSync`, so
a `TypeError` is raised, logged, and re-thrown; it never resolves with
the documented boolean, and `fileExists` and `directoryExists` delegate
to it and therefore reject identically. -/
theorem C3 (path : String) :
    (FileManager.pathExist path).result = .error FileManager.existsSyncUndefinedError ∧
    (errorLogs (FileManager.pathExist path).trace).length = 1 ∧
    FileManager.fileExists path = FileManager.pathExist path ∧
    FileManager.directoryExists path = FileManager.pathExist path := by
  exact ⟨rfl, rfl, rfl, rfl⟩

/-- C4: in `FileManager.deletePath` the existence check is a Promise
that is never awaited, hence truthy; so for every input and every engine
result the `fs.rm` call is attempted and the "Non-existing path"
warn-branch never runs (the trace never contains a `console.warn`). -/
theorem C4 (rmRes : Except JsError Unit) (path : String) (recursive : Bool) :
    truthy JsValue.promiseObj = true ∧
    "fs.rm" ∈ engineCalls (FileManager.deletePath rmRes path recursive).trace ∧
    warnLogs (FileManager.deletePath rmRes path recursive).trace = [] := by
  refine ⟨rfl, ?_, ?_⟩ <;>
    cases rmRes <;>
      simp [FileManager.deletePath, FileManager.pathExist, truthy,
        engineCalls, warnLogs]

/-- C5, counterexample: timing is not entirely delegated to the wrapped
engine call — on a fully successful `goToUrl` (defaults `waitMin = 4000`,
`waitMax = 7000`, random draw 0) the wrapper schedules an extra
4000-millisecond wait of its own after `page.goto` completes. -/
theorem C5_counterexample :
    sleeps (PageHandler.goToUrl (.ok ()) (.ok ()) "https://www.example.com" "load"
        4000 7000 0).trace
      = [PageHandler.waitTime 4000 7000 0] ∧
    PageHandler.waitTime 4000 7000 0 = 4000 := by
  refine ⟨rfl, ?_⟩
  simp [PageHandler.waitTime]

/-- C5 (amended): the PageHandler navigation and interaction operations
introduce a wrapper-chosen random-delay wait (a `page.waitForTimeout` of
duration `waitTime waitMin waitMax r`) after the wrapped engine call
completes; the FileManager and BrowserManager operations and the
PageHandler query operations introduce no waiting of their own. -/
theorem C5_amended (url options sel p o d prettified : String)
    (wmin wmax : Int) (r : ℚ) (isSel recursive pretty : Bool)
    (mres wres2 ares rmres c1 c2 : Except JsError Unit)
    (rres : Except JsError String) (st : BMState)
    (lres cres pres : Except JsError Nat) (allRes : Except JsError (List Nat))
    (tres atres : Except JsError (Option String)) :
    sleeps (PageHandler.goToUrl (.ok ()) (.ok ()) url options wmin wmax r).trace
      = [PageHandler.waitTime wmin wmax r] ∧
    sleeps (PageHandler.clickAndWait isSel sel (.ok ()) (.ok ()) wmin wmax r).trace
      = [PageHandler.waitTime wmin wmax r] ∧
    sleeps (FileManager.createDirectory mres p recursive).trace = [] ∧
    sleeps (FileManager.readFile rres p o).trace = [] ∧
    sleeps (FileManager.writeFile wres2 p d).trace = [] ∧
    sleeps (FileManager.appendToFile ares p d).trace = [] ∧
    sleeps (FileManager.saveJson wres2 p d prettified pretty).trace = [] ∧
    sleeps (FileManager.deletePath rmres p recursive).trace = [] ∧
    sleeps (BrowserManager.launchBrowser st lres cres pres).2.trace = [] ∧
    sleeps (BrowserManager.closeBrowser st c1 c2).2.trace = [] ∧
    sleeps (PageHandler.getElements sel allRes).trace = [] ∧
    sleeps (PageHandler.getElementText isSel sel tres).trace = [] ∧
    sleeps (PageHandler.getElementAttribute sel o atres).trace = [] := by
  refine ⟨rfl, rfl, ?_, ?_, ?_, ?_, ?_, ?_, ?_, ?_, ?_, ?_, ?_⟩
  · cases mres <;> rfl
  · cases rres <;> first
      | rfl
      | (simp only [FileManager.readFile]; split <;> rfl)
  · cases wres2 <;> rfl
  · cases ares <;> rfl
  · cases wres2 <;> rfl
  · cases rmres <;> rfl
  · cases lres <;> cases cres <;> cases pres <;> rfl
  · rcases st with ⟨bb, cc, pp⟩
    cases bb <;> cases cc <;> cases c1 <;> cases c2 <;> rfl
  · cases allRes <;> rfl
  · cases tres <;> rfl
  · cases atres <;> rfl

/-- C6: the delay computed by `PageHandler.waitForRandomTimeout` is
bounded: for all integers `waitMin ≤ waitMax` and every random draw
`r ∈ [0, 1)`, `waitTime waitMin waitMax r = ⌊r * (waitMax - waitMin +
1)⌋ + waitMin` satisfies `waitMin ≤ waitTime ≤ waitMax`. -/
theorem C6 (waitMin waitMax : Int) (r : ℚ) (hle : waitMin ≤ waitMax)
    (h0 : 0 ≤ r) (h1 : r < 1) :
    waitMin ≤ PageHandler.waitTime waitMin waitMax r ∧
    PageHandler.waitTime waitMin waitMax r ≤ waitMax := by
  unfold PageHandler.waitTime
  have hN : (0 : ℚ) < (waitMax : ℚ) - (waitMin : ℚ) + 1 := by
    have : (waitMin : ℚ) ≤ (waitMax : ℚ) := by exact_mod_cast hle
    linarith
  constructor
  · have hnn : (0 : ℚ) ≤ r * ((waitMax : ℚ) - (waitMin : ℚ) + 1) :=
      mul_nonneg h0 (le_of_lt hN)
    have hf : (0 : ℤ) ≤ ⌊r * ((waitMax : ℚ) - (waitMin : ℚ) + 1)⌋ :=
      Int.floor_nonneg.mpr hnn
    linarith
  · have hlt : r * ((waitMax : ℚ) - (waitMin : ℚ) + 1)
        < (waitMax : ℚ) - (waitMin : ℚ) + 1 := by
      have := mul_lt_mul_of_pos_right h1 hN
      simpa using this
    have hfl : ⌊r * ((waitMax : ℚ) - (waitMin : ℚ) + 1)⌋ < waitMax - waitMin + 1 := by
      rw [Int.floor_lt]
      push_cast
      linarith
    linarith

/-- C6, witness: at the source defaults `waitMin = 5000`,
`waitMax = 12000` and the draw `r = 0`, the hypotheses hold and the
computed delay lies between 5000 and 12000. -/
theorem C6_witness :
    (5000 : Int) ≤ 12000 ∧ (0 : ℚ) ≤ 0 ∧ (0 : ℚ) < 1 ∧
    (5000 ≤ PageHandler.waitTime 5000 12000 0 ∧
      PageHandler.waitTime 5000 12000 0 ≤ 12000) :=
  ⟨by decide, le_refl 0, by decide,
    C6 5000 12000 0 (by decide) (le_refl 0) (by decide)⟩

/-- C7, counterexample: `PageHandler.getElements` emits no console log on
successful completion of its engine call — its success trace contains no
`console.log` at all. -/
theorem C7_counterexample :
    logs (PageHandler.getElements "div" (.ok [1, 2, 3])).trace = [] ∧
    (PageHandler.getElements "div" (.ok [1, 2, 3])).result = .ok [1, 2, 3] :=
  ⟨rfl, rfl⟩

/-- C7 (amended): on successful completion of the wrapped engine call
every public operation emits a console log message, EXCEPT the query
operations `getElements`, `getElementText` and `getElementAttribute` and
the helper `waitForRandomTimeout`, which resolve without logging
(`pathExist` never completes successfully at all, per C3). -/
theorem C7_amended (p o d sel text url options endpoint prettified data : String)
    (recursive pretty : Bool) (b c pg : Nat) (bOpt pgOpt : Option Nat)
    (wmin wmax : Int) (r : ℚ) (st : BMState) (xs : List Nat) (t : Option String) :
    logs (FileManager.createDirectory (.ok ()) p recursive).trace
      = ["directory already exist or it was created: " ++ p] ∧
    logs (FileManager.readFile (.ok data) p o).trace = ["Read file at path: " ++ p] ∧
    logs (FileManager.writeFile (.ok ()) p d).trace = ["Wrote data to file at: " ++ p] ∧
    logs (FileManager.appendToFile (.ok ()) p d).trace
      = ["Appended data to file at path: " ++ p] ∧
    logs (FileManager.saveJson (.ok ()) p d prettified pretty).trace
      = ["JSON file saved at path " ++ p] ∧
    logs (FileManager.deletePath (.ok ()) p recursive).trace = ["Deleted path: " ++ p] ∧
    logs (BrowserManager.launchBrowser st (.ok b) (.ok c) (.ok pg)).2.trace
      = ["Browser Launched"] ∧
    logs (BrowserManager.connectOverCDP st endpoint 0 (.ok b) [c] (.ok pg)).2.trace
      = ["Connected to endpoint: " ++ endpoint ++ ", context index: " ++ toString 0] ∧
    logs (BrowserManager.newContext ⟨bOpt, none, pgOpt⟩ (.ok c)).2.trace
      = ["New Context Created"] ∧
    logs (BrowserManager.newPage st false (.ok pg)).2.trace = ["New Page Created"] ∧
    logs (BrowserManager.newPage st true (.ok pg)).2.trace
      = ["Creating new isolated page"] ∧
    logs (BrowserManager.closeContext ⟨bOpt, some c, pgOpt⟩ (.ok ())).2.trace
      = ["Closed Context"] ∧
    logs (BrowserManager.closeBrowser ⟨some b, some c, pgOpt⟩ (.ok ()) (.ok ())).2.trace
      = ["Closed Context", "Closed Browser"] ∧
    logs (PageHandler.goToUrl (.ok ()) (.ok ()) url options wmin wmax r).trace
      = ["Goto: " ++ url ++ "\n"] ∧
    logs (PageHandler.goBack (.ok ()) (.ok ()) options wmin wmax r).trace
      = ["Go Back\n"] ∧
    logs (PageHandler.goForward (.ok ()) (.ok ()) options wmin wmax r).trace
      = ["Go Forward"] ∧
    logs (PageHandler.reloadPage (.ok ()) (.ok ()) options wmin wmax r).trace
      = ["Reloaded Page\n"] ∧
    logs (PageHandler.clickAndWait true sel (.ok ()) (.ok ()) wmin wmax r).trace
      = ["Clicked element"] ∧
    logs (PageHandler.typeText true sel text (.ok ()) (.ok ()) wmin wmax r true).trace
      = ["Filled input element with: " ++ text] ∧
    logs (PageHandler.clickElemenWithText sel text (.ok ()) (.ok ()) wmin wmax r).trace
      = ["Clicked element with text: " ++ text] ∧
    logs (PageHandler.getElements sel (.ok xs)).trace = [] ∧
    logs (PageHandler.getElementText true sel (.ok t)).trace = [] ∧
    logs (PageHandler.getElementAttribute sel o (.ok t)).trace = [] ∧
    logs (PageHandler.waitForRandomTimeout (.ok ()) r wmin wmax).trace = [] :=
  ⟨rfl, rfl, rfl, rfl, rfl, rfl, rfl, rfl, rfl, rfl, rfl, rfl, rfl, rfl, rfl,
   rfl, rfl, rfl, rfl, rfl, rfl, rfl, rfl, rfl⟩

/-- C8: `closeContext` and `closeBrowser` leave the `browser`, `context`
and `page` fields untouched (they are never reset to null), and for any
manager whose `context` field is non-null, `newContext` performs no
engine call, creates nothing, and returns the stored context unchanged. -/
theorem C8 (st : BMState) (c : Nat) (hc : st.context = some c)
    (closeRes ctxClose bRes : Except JsError Unit) (ctxRes : Except JsError Nat) :
    (BrowserManager.closeContext st closeRes).1 = st ∧
    (BrowserManager.closeBrowser st ctxClose bRes).1 = st ∧
    (BrowserManager.newContext st ctxRes).1 = st ∧
    (BrowserManager.newContext st ctxRes).2.result = .ok c ∧
    engineCalls (BrowserManager.newContext st ctxRes).2.trace = [] := by
  rcases st with ⟨bb, cc, pp⟩
  obtain rfl : cc = some c := hc
  cases bb <;> cases closeRes <;> cases ctxClose <;> cases bRes <;>
    exact ⟨rfl, rfl, rfl, rfl, rfl⟩

/-- C8, witness: for the concrete manager state with browser 1, context
2 and page 3 (all non-null) and successful engine results, the fields
survive `closeContext` and `closeBrowser` and `newContext` hands back
context 2 without any engine call. -/
theorem C8_witness :
    ((⟨some 1, some 2, some 3⟩ : BMState).context = some 2) ∧
    ((BrowserManager.closeContext ⟨some 1, some 2, some 3⟩ (.ok ())).1
        = (⟨some 1, some 2, some 3⟩ : BMState) ∧
      (BrowserManager.closeBrowser ⟨some 1, some 2, some 3⟩ (.ok ()) (.ok ())).1
        = (⟨some 1, some 2, some 3⟩ : BMState) ∧
      (BrowserManager.newContext ⟨some 1, some 2, some 3⟩ (.ok 9)).1
        = (⟨some 1, some 2, some 3⟩ : BMState) ∧
      (BrowserManager.newContext ⟨some 1, some 2, some 3⟩ (.ok 9)).2.result = .ok 2 ∧
      engineCalls (BrowserManager.newContext ⟨some 1, some 2, some 3⟩ (.ok 9)).2.trace
        = []) :=
  ⟨rfl, C8 ⟨some 1, some 2, some 3⟩ 2 rfl (.ok ()) (.ok ()) (.ok ()) (.ok 9)⟩

/-- C9: a Locator is lazily resolved — `page.locator` records only the
selector, so locators created under any two DOMs are equal, and every
action (`textContent`, `getAttribute`, click, fill) re-queries the
selector against the DOM current at action time; hence a DOM mutation
between creation (`d1`) and the action (`d2`) is reflected in the
outcome, including the value `PageHandler.getElementText` returns. -/
theorem C9 (d1 d2 : EngineModel.DOM) (sel attributeName : String) :
    EngineModel.pageLocator d1 sel = EngineModel.pageLocator d2 sel ∧
    EngineModel.textContentAt d2 (EngineModel.pageLocator d1 sel)
      = ((EngineModel.query d2 sel).head?).map EngineModel.Elem.text ∧
    EngineModel.getAttributeAt d2 (EngineModel.pageLocator d1 sel) attributeName
      = ((EngineModel.query d2 sel).head?).bind
          (fun el => el.attrs.lookup attributeName) ∧
    EngineModel.clickTargetAt d2 (EngineModel.pageLocator d1 sel)
      = (EngineModel.query d2 sel).head? ∧
    EngineModel.fillTargetAt d2 (EngineModel.pageLocator d1 sel)
      = (EngineModel.query d2 sel).head? ∧
    (PageHandler.getElementText false sel
        (.ok (EngineModel.textContentAt d2 (EngineModel.pageLocator d1 sel)))).result
      = .ok (((EngineModel.query d2 sel).head?).map EngineModel.Elem.text) :=
  ⟨rfl, rfl, rfl, rfl, rfl, rfl⟩

end PlaywrightScraper
